import Mathlib

/-!
Verification of the procedural background renderer and time formatter of the
zenflow repository.  The GLSL fragment shader (`liquidCrystalShader`), the
React host component (`LiquidCrystalBackground`) and the `formatTime` utility
are shallowly embedded below; machine reals are modelled by `ℝ`, GLSL
built-ins (`clamp`, `mix`, `length`) by their mathematical definitions.
The first half of the file holds the definitions, the second the theorems.
-/

namespace Zenflow

noncomputable section ShaderDefs

/-- GLSL built-in `clamp(x, lo, hi) = min(max(x, lo), hi)`. -/
def glClamp (x lo hi : ℝ) : ℝ := min (max x lo) hi

/-- GLSL built-in `mix(x, y, a) = x*(1-a) + y*a` (linear interpolation). -/
def glMix (x y a : ℝ) : ℝ := x * (1 - a) + y * a

/-- GLSL built-in `length(p)` for a `vec2`. -/
def glLength (p : ℝ × ℝ) : ℝ := Real.sqrt (p.1 ^ 2 + p.2 ^ 2)

/-- Shader function `sdCircle(vec2 p, float r) = length(p) - r`. -/
def sdCircle (p : ℝ × ℝ) (r : ℝ) : ℝ := glLength p - r

/-- Shader function `opSmoothUnion(float d1, float d2, float k)`:
`h = clamp(0.5 + 0.5*(d2-d1)/k, 0.0, 1.0); mix(d2, d1, h) - k*h*(1.0-h)`. -/
def opSmoothUnion (d1 d2 k : ℝ) : ℝ :=
  let h := glClamp (0.5 + 0.5 * (d2 - d1) / k) 0 1
  glMix d2 d1 h - k * h * (1 - h)

/-- Scene parameters: the shader uniforms `u_speed`, `u_radii = [r1,r2,r3]`,
`u_smoothK = [k12, k123]`. -/
structure SceneParams where
  speed : ℝ
  r1 : ℝ
  r2 : ℝ
  r3 : ℝ
  k12 : ℝ
  k123 : ℝ

/-- First blob center in `mapScene`: `vec2(cos(t * 0.5), sin(t * 0.5)) * 0.3`. -/
def center1 (t : ℝ) : ℝ × ℝ := (Real.cos (t * 0.5) * 0.3, Real.sin (t * 0.5) * 0.3)

/-- Second blob center: `vec2(cos(t * 0.7 + 2.1), sin(t * 0.6 + 2.1)) * 0.4`. -/
def center2 (t : ℝ) : ℝ × ℝ :=
  (Real.cos (t * 0.7 + 2.1) * 0.4, Real.sin (t * 0.6 + 2.1) * 0.4)

/-- Third blob center: `vec2(cos(t * 0.4 + 4.2), sin(t * 0.8 + 4.2)) * 0.35`. -/
def center3 (t : ℝ) : ℝ × ℝ :=
  (Real.cos (t * 0.4 + 4.2) * 0.35, Real.sin (t * 0.8 + 4.2) * 0.35)

/-- Shader function `mapScene(vec2 uv)`: the scene SDF built from the three
animated circles, pairwise merged by `opSmoothUnion` with `u_smoothK`. -/
def mapScene (P : SceneParams) (u_time : ℝ) (uv : ℝ × ℝ) : ℝ :=
  let t := u_time * P.speed
  let p1 := center1 t
  let p2 := center2 t
  let p3 := center3 t
  let b1 := sdCircle (uv.1 - p1.1, uv.2 - p1.2) P.r1
  let b2 := sdCircle (uv.1 - p2.1, uv.2 - p2.2) P.r2
  let b3 := sdCircle (uv.1 - p3.1, uv.2 - p3.2) P.r3
  let u12 := opSmoothUnion b1 b2 P.k12
  opSmoothUnion u12 b3 P.k123

/-- The shader `main`'s normalization
`uv = (gl_FragCoord.xy - 0.5 * u_resolution.xy) / u_resolution.y`. -/
def uvOf (frag res : ℝ × ℝ) : ℝ × ℝ :=
  ((frag.1 - 0.5 * res.1) / res.2, (frag.2 - 0.5 * res.2) / res.2)

/-- The shader `main`, as the map from a fragment coordinate to the RGBA
value written to `fragColor`:
`base = vec3(0.01 / abs(d))`, `pha = 0.5 + 0.5*cos(u_time*0.2 + uv.xyx + vec3(0,1,2))`,
`col = clamp(base*pha, 0, 1)`, `fragColor = vec4(col, 1)`.  The swizzle
`uv.xyx` makes the three channel phases `uv.x`, `uv.y`, `uv.x`. -/
def shaderMain (P : SceneParams) (u_time : ℝ) (u_res frag : ℝ × ℝ) :
    ℝ × ℝ × ℝ × ℝ :=
  let uv := uvOf frag u_res
  let d := mapScene P u_time uv
  let base := 0.01 / |d|
  let phaR := 0.5 + 0.5 * Real.cos (u_time * 0.2 + uv.1 + 0)
  let phaG := 0.5 + 0.5 * Real.cos (u_time * 0.2 + uv.2 + 1)
  let phaB := 0.5 + 0.5 * Real.cos (u_time * 0.2 + uv.1 + 2)
  (glClamp (base * phaR) 0 1, glClamp (base * phaG) 0 1,
    glClamp (base * phaB) 0 1, 1)

/-- A blob orbit as written in the shader source: each center is
`vec2(cos(t * rateX + phaseX), sin(t * rateY + phaseY)) * scale`. -/
structure OrbitSpec where
  rateX : ℝ
  phaseX : ℝ
  rateY : ℝ
  phaseY : ℝ
  scale : ℝ

/-- Position of an `OrbitSpec` at scaled time `t`. -/
def OrbitSpec.pos (o : OrbitSpec) (t : ℝ) : ℝ × ℝ :=
  (Real.cos (t * o.rateX + o.phaseX) * o.scale,
    Real.sin (t * o.rateY + o.phaseY) * o.scale)

/-- The coefficients of the first center as they appear in the source. -/
def orbit1 : OrbitSpec := ⟨0.5, 0, 0.5, 0, 0.3⟩

/-- The coefficients of the second center as they appear in the source. -/
def orbit2 : OrbitSpec := ⟨0.7, 2.1, 0.6, 2.1, 0.4⟩

/-- The coefficients of the third center as they appear in the source. -/
def orbit3 : OrbitSpec := ⟨0.4, 4.2, 0.8, 4.2, 0.35⟩

/-- Center formula claimed by the spec: `center1 = (cos(0.5t), sin(0.5t)) · 0.3`. -/
def specCenter1 (t : ℝ) : ℝ × ℝ :=
  (Real.cos (0.5 * t) * 0.3, Real.sin (0.5 * t) * 0.3)

/-- Center formula claimed by the spec:
`center2 = (cos(0.7t + 2.1), sin(0.6t + 2.1)) · 0.4`. -/
def specCenter2 (t : ℝ) : ℝ × ℝ :=
  (Real.cos (0.7 * t + 2.1) * 0.4, Real.sin (0.6 * t + 2.1) * 0.4)

/-- Center formula claimed by the spec:
`center3 = (cos(0.4t + 4.2), sin(0.8t + 4.2)) · 0.35`. -/
def specCenter3 (t : ℝ) : ℝ × ℝ :=
  (Real.cos (0.4 * t + 4.2) * 0.35, Real.sin (0.8 * t + 4.2) * 0.35)

/-- Pixel color as the spec describes it: a grayscale base
`base = 0.01 / |finalDistance|` applied identically to all three RGB
channels, a palette `0.5 + 0.5*cos(elapsedTimeSeconds*0.2 + uv.xyx + (0,1,2))`
built from the UNSCALED elapsed time, output
`clamp(base * palette, 0, 1)` per component with alpha exactly `1`. -/
def specPixelColor (P : SceneParams) (elapsed : ℝ) (res frag : ℝ × ℝ) :
    ℝ × ℝ × ℝ × ℝ :=
  let uv := uvOf frag res
  let finalDistance := mapScene P elapsed uv
  let base := 0.01 / |finalDistance|
  let uvxyx : ℝ × ℝ × ℝ := (uv.1, uv.2, uv.1)
  let palette : ℝ × ℝ × ℝ :=
    (0.5 + 0.5 * Real.cos (elapsed * 0.2 + uvxyx.1 + 0),
      0.5 + 0.5 * Real.cos (elapsed * 0.2 + uvxyx.2.1 + 1),
      0.5 + 0.5 * Real.cos (elapsed * 0.2 + uvxyx.2.2 + 2))
  (glClamp (base * palette.1) 0 1, glClamp (base * palette.2.1) 0 1,
    glClamp (base * palette.2.2) 0 1, 1)

/-- The parameter values in effect when the component is constructed with
no overrides: `speed = 0.5`, `radii = [0.2, 0.15, 0.22]`,
`smoothK = [0.2, 0.25]`. -/
def defaultParams : SceneParams := ⟨0.5, 0.2, 0.15, 0.22, 0.2, 0.25⟩

/-- The `gl_FragCoord.xy` value at which pixel `(i, j)` is sampled: the
pixel's center `(i + 0.5, j + 0.5)`. -/
def fragCenter (i j : ℕ) : ℝ × ℝ := ((i : ℝ) + 0.5, (j : ℝ) + 0.5)

end ShaderDefs

/-! Host component `LiquidCrystalBackground`: the `useEffect` body, the
`Renderer` class constructor and the JSX error fallback, embedded as pure
functions of the environment's capabilities (canvas present, WebGL2
context available, shader compile and program link statuses). -/

/-- An observable action performed by the `useEffect` body. -/
inductive EffectAction where
  | setErrorCall (msg : String)
  | rendererConstruction
  | addResizeListener
  | resizeCall
  | animationFrameRequest
deriving DecidableEq, Repr

/-- Result of running the `useEffect` body once: the actions performed, in
order, and the component's `error` state afterwards. -/
structure EffectRun where
  actions : List EffectAction
  errorState : Option String
deriving DecidableEq, Repr

/-- The `useEffect` body of `LiquidCrystalBackground`:
`if (!canvas) return;` then
`const gl = canvas.getContext("webgl2"); if (!gl) { setError("WebGL2 not supported"); return; }`
then `new Renderer()`, resize-listener registration, an initial `resize()`
and the first `requestAnimationFrame(animate)`. -/
def backgroundEffect (canvasPresent webgl2Available : Bool) : EffectRun :=
  if !canvasPresent then ⟨[], none⟩
  else if !webgl2Available then
    ⟨[.setErrorCall "WebGL2 not supported"], some "WebGL2 not supported"⟩
  else
    ⟨[.rendererConstruction, .addResizeListener, .resizeCall,
      .animationFrameRequest], none⟩

/-- The JSX fallback: `{error && <div ...>{error}</div>}` — the overlay with
the error text is rendered exactly when `error` is non-null. -/
def fallbackOverlayText (errorState : Option String) : Option String :=
  errorState

/-- What the `Renderer` constructor does, as a function of the GL statuses
it reads back (`COMPILE_STATUS` of each shader, `LINK_STATUS` of the
program). -/
structure RendererConstruction where
  loggedShaderInfoLog : Bool
  loggedProgramInfoLog : Bool
  completed : Bool
deriving DecidableEq, Repr

/-- The `Renderer` constructor: `compile` logs `getShaderInfoLog` when a
shader's `COMPILE_STATUS` is false; after `linkProgram`, a false
`LINK_STATUS` is logged via `getProgramInfoLog` — and the constructor then
simply continues (no early return, no exception, no error surfaced), so it
always completes and produces the renderer object. -/
def rendererConstructor (vsCompileStatus fsCompileStatus linkStatus : Bool) :
    RendererConstruction :=
  { loggedShaderInfoLog := !vsCompileStatus || !fsCompileStatus
    loggedProgramInfoLog := !linkStatus
    completed := true }

/-- The host's state once a WebGL2 context exists: `new Renderer()` runs,
and the `animate` loop calls `renderer.render(t)` (which issues
`gl.useProgram(this.prog)` and `gl.drawArrays`) on every frame, regardless
of the link status recorded at construction. -/
structure HostRenderLoop where
  rendererProduced : Bool
  drawsIssuedEachFrame : Bool
  errorState : Option String
deriving DecidableEq, Repr

/-- The post-context part of the `useEffect` body: the constructor's outcome
feeds no branch — the renderer is used and frames are drawn
unconditionally, and `setError` is never called on this path. -/
def hostAfterContext (vsCompileStatus fsCompileStatus linkStatus : Bool) :
    HostRenderLoop :=
  let c := rendererConstructor vsCompileStatus fsCompileStatus linkStatus
  { rendererProduced := c.completed
    drawsIssuedEachFrame := true
    errorState := none }

/-! Construction parameters of `LiquidCrystalBackground`: every prop is
optional and is defaulted independently by the destructuring
`{ speed = 0.5, radii = [0.2, 0.15, 0.22], smoothK = [0.2, 0.25], ... }`.
Numeric literals are modelled by `ℚ`, which represents the decimal
literals of the source exactly. -/

/-- The optional props accepted by the component (numeric parts). -/
structure LiquidCrystalProps where
  speed : Option ℚ
  radii : Option (ℚ × ℚ × ℚ)
  smoothK : Option (ℚ × ℚ)
deriving DecidableEq, Repr

/-- The parameter values actually in effect after destructuring. -/
structure ResolvedParams where
  speed : ℚ
  radii : ℚ × ℚ × ℚ
  smoothK : ℚ × ℚ
deriving DecidableEq, Repr

/-- The component's destructuring defaults: a missing (undefined) field
takes its default, independently of the other fields. -/
def resolveProps (p : LiquidCrystalProps) : ResolvedParams :=
  { speed := p.speed.getD 0.5
    radii := p.radii.getD (0.2, 0.15, 0.22)
    smoothK := p.smoothK.getD (0.2, 0.25) }

/-! The `formatTime` utility of `src/utils/time.ts`, on the nonnegative
integers (JS `Math.floor` of a nonnegative integer quotient is `Nat`
division, and `%` on nonnegative integers is `Nat.mod`). -/

/-- JS `num.toString().padStart(2, '0')`: prepend zeros until the decimal
representation has length at least 2. -/
def padStart2 (num : ℕ) : String :=
  let s := toString num
  String.mk (List.replicate (2 - s.length) '0') ++ s

/-- `formatTime` from `src/utils/time.ts`:
`h = floor(seconds/3600)`, `m = floor((seconds % 3600)/60)`,
`s = seconds % 60`; result `"h:mm:ss"` when `h > 0`, else `"mm:ss"`. -/
def formatTime (seconds : ℕ) : String :=
  let h := seconds / 3600
  let m := seconds % 3600 / 60
  let s := seconds % 60
  if h > 0 then
    toString h ++ ":" ++ padStart2 m ++ ":" ++ padStart2 s
  else
    padStart2 m ++ ":" ++ padStart2 s

/-! From here on: the lemmas and the claim theorems. -/

lemma glClamp_nonneg (x : ℝ) : 0 ≤ glClamp x 0 1 :=
  le_min (le_max_right x 0) zero_le_one

lemma glClamp_le_one (x : ℝ) : glClamp x 0 1 ≤ 1 := min_le_right _ _

lemma glClamp_of_le_zero {x : ℝ} (hx : x ≤ 0) : glClamp x 0 1 = 0 := by
  unfold glClamp
  rw [max_eq_right hx, min_eq_left zero_le_one]

lemma glClamp_of_one_le {x : ℝ} (hx : 1 ≤ x) : glClamp x 0 1 = 1 := by
  unfold glClamp
  rw [max_eq_left (le_trans zero_le_one hx), min_eq_right hx]

lemma glClamp_of_mem {x : ℝ} (h0 : 0 ≤ x) (h1 : x ≤ 1) : glClamp x 0 1 = x := by
  unfold glClamp
  rw [max_eq_left h0, min_eq_left h1]

/-- The clamp argument of `opSmoothUnion`, with the division eliminated:
for `k ≠ 0` we have `k * (2*h₀ - 1) = d2 - d1` where `h₀` is the raw
(unclamped) argument. -/
lemma smooth_arg_mul {d1 d2 k : ℝ} (hk : k ≠ 0) :
    k * (2 * (0.5 + 0.5 * (d2 - d1) / k) - 1) = d2 - d1 := by
  field_simp
  ring

/-- C1 helper: the smooth union never exceeds the hard minimum. -/
lemma opSmoothUnion_le_min (d1 d2 k : ℝ) (hk : 0 < k) :
    opSmoothUnion d1 d2 k ≤ min d1 d2 := by
  have hkne : k ≠ 0 := ne_of_gt hk
  have harg := @smooth_arg_mul d1 d2 k hkne
  set a : ℝ := 0.5 + 0.5 * (d2 - d1) / k with ha
  rcases le_total a 0 with h0 | h0
  · -- clamped to 0: the result is d2 and d2 ≤ d1 here
    have hd : d2 - d1 ≤ -k := by nlinarith
    simp only [opSmoothUnion, ← ha, glClamp_of_le_zero h0, glMix]
    have h1 : d2 ≤ d1 := by linarith
    refine le_min (by linarith) (by linarith)
  · rcases le_total 1 a with h1 | h1
    · -- clamped to 1: the result is d1 and d1 ≤ d2 here
      have hd : k ≤ d2 - d1 := by nlinarith
      simp only [opSmoothUnion, ← ha, glClamp_of_one_le h1, glMix]
      refine le_min (by linarith) (by linarith)
    · -- interior: result is min - (k/4)*(1 ∓ q)^2 with q = (d2-d1)/k
      simp only [opSmoothUnion, ← ha, glClamp_of_mem h0 h1, glMix]
      refine le_min ?_ ?_
      · nlinarith [mul_nonneg hk.le (sq_nonneg (1 - a))]
      · nlinarith [mul_nonneg hk.le (sq_nonneg a)]

/-- C1: for all real `d1, d2` and every sharpness `k > 0`, the smooth-union
blend `opSmoothUnion` (with `h = clamp(0.5 + 0.5*(d2-d1)/k, 0, 1)` and
result `mix(d2,d1,h) - k*h*(1-h)`) satisfies
`opSmoothUnion d1 d2 k ≤ min d1 d2`: the smooth union never exceeds the
hard union. -/
theorem smoothUnion_never_exceeds_hard_union (d1 d2 k : ℝ) (hk : 0 < k) :
    opSmoothUnion d1 d2 k ≤ min d1 d2 :=
  opSmoothUnion_le_min d1 d2 k hk

/-- C1 witness: the bound at the concrete input `d1 = 1`, `d2 = 2`, `k = 1`. -/
theorem smoothUnion_never_exceeds_hard_union_witness :
    opSmoothUnion 1 2 1 ≤ min 1 2 :=
  smoothUnion_never_exceeds_hard_union 1 2 1 (by norm_num)

/-- Reflection identity for `glClamp` on `[0,1]`: clamping `1 - x` is one
minus clamping `x`. -/
lemma glClamp_one_sub (x : ℝ) : glClamp (1 - x) 0 1 = 1 - glClamp x 0 1 := by
  rcases le_total x 0 with h0 | h0
  · rw [glClamp_of_le_zero h0, glClamp_of_one_le (by linarith)]
    norm_num
  · rcases le_total 1 x with h1 | h1
    · rw [glClamp_of_one_le h1, glClamp_of_le_zero (by linarith)]
      norm_num
    · rw [glClamp_of_mem h0 h1, glClamp_of_mem (by linarith) (by linarith)]

/-- C2 helper: the raw clamp arguments for the two argument orders are
reflections of each other. -/
lemma smooth_arg_swap (d1 d2 k : ℝ) :
    0.5 + 0.5 * (d1 - d2) / k = 1 - (0.5 + 0.5 * (d2 - d1) / k) := by
  rcases eq_or_ne k 0 with hk | hk
  · simp [hk]
    norm_num
  · field_simp
    ring

/-- C2: the smooth-union blend is symmetric in its two distance arguments:
for all `d1, d2` and every nonzero sharpness `k`,
`opSmoothUnion d1 d2 k = opSmoothUnion d2 d1 k`. -/
theorem smoothUnion_symm (d1 d2 k : ℝ) (_hk : k ≠ 0) :
    opSmoothUnion d1 d2 k = opSmoothUnion d2 d1 k := by
  simp only [opSmoothUnion, smooth_arg_swap d2 d1 k, glClamp_one_sub, glMix]
  ring

/-- C2 witness: symmetry at the concrete input `d1 = 3`, `d2 = 7`, `k = 2`. -/
theorem smoothUnion_symm_witness :
    opSmoothUnion 3 7 2 = opSmoothUnion 7 3 2 :=
  smoothUnion_symm 3 7 2 (by norm_num)

lemma center1_eq_orbit1 (t : ℝ) : center1 t = orbit1.pos t := by
  simp [center1, orbit1, OrbitSpec.pos]

lemma center2_eq_orbit2 (t : ℝ) : center2 t = orbit2.pos t := by
  simp [center2, orbit2, OrbitSpec.pos]

lemma center3_eq_orbit3 (t : ℝ) : center3 t = orbit3.pos t := by
  simp [center3, orbit3, OrbitSpec.pos]

/-- C3 counterexample: the first center does NOT use a different angular
rate for its x and y components — both rates are `0.5`, so the part of the
claim asserting that each of the three centers uses distinct per-axis rates
fails at center 1. -/
theorem center1_rates_equal_counterexample :
    orbit1.rateX = orbit1.rateY ∧ orbit1.rateX = 0.5 := by
  constructor <;> norm_num [orbit1]

/-- C3 (amended): the three blob centers follow exactly the claimed
formulas; centers 2 and 3 each use a different angular rate for x than for
y (`0.7` vs `0.6`, `0.4` vs `0.8`), but center 1 uses the same rate `0.5`
for both components. -/
theorem blob_centers_formulas_and_rates (t : ℝ) :
    center1 t = specCenter1 t ∧ center2 t = specCenter2 t ∧
      center3 t = specCenter3 t ∧
      orbit2.rateX ≠ orbit2.rateY ∧ orbit3.rateX ≠ orbit3.rateY ∧
      orbit1.rateX = orbit1.rateY := by
  refine ⟨?_, ?_, ?_, by norm_num [orbit2], by norm_num [orbit3],
    by norm_num [orbit1]⟩
  · simp [center1, specCenter1, mul_comm]
  · simp [center2, specCenter2, mul_comm]
  · simp [center3, specCenter3, mul_comm]

/-- C4: for every pixel the shader's output equals the spec's formula:
base `0.01/|finalDistance|` on all three channels, palette
`0.5 + 0.5*cos(elapsedTimeSeconds*0.2 + uv.xyx + (0,1,2))` from the
unscaled elapsed time, final color the component-wise
`clamp(base * palette, 0, 1)` with alpha `1`. -/
theorem fragment_color_matches_spec (P : SceneParams) (u_time : ℝ)
    (u_res frag : ℝ × ℝ) :
    shaderMain P u_time u_res frag = specPixelColor P u_time u_res frag := rfl

/-- C5: the normalization `uv = (pixelCoord - 0.5 * resolution) / resolution.height`
is scale-invariant: for every positive scale `s`, resolution `(w, h)` with
`0 < h` and pixel coordinate `(px, py)`, the uv computed at pixel
`(s*px, s*py)` under resolution `(s*w, s*h)` equals the uv computed at
`(px, py)` under `(w, h)`. -/
theorem uv_normalization_scale_invariant (s w h px py : ℝ)
    (hs : 0 < s) (hh : 0 < h) :
    uvOf (s * px, s * py) (s * w, s * h) = uvOf (px, py) (w, h) := by
  unfold uvOf
  have hs0 : s ≠ 0 := ne_of_gt hs
  have hh0 : h ≠ 0 := ne_of_gt hh
  refine Prod.ext ?_ ?_ <;> · field_simp; ring

/-- C5 witness: scale invariance at `s = 2`, resolution `(4, 3)`, pixel
`(1, 2)`. -/
theorem uv_normalization_scale_invariant_witness :
    uvOf (2 * 1, 2 * 2) (2 * 4, 2 * 3) = uvOf (1, 2) (4, 3) :=
  uv_normalization_scale_invariant 2 4 3 1 2 (by norm_num) (by norm_num)

/-- C6: when the WebGL2 context is unavailable the effect reports the error
state "WebGL2 not supported" without crashing (it returns normally), it
constructs no renderer and requests no animation frame (so no draw is ever
issued), and the host renders the human-readable fallback overlay with that
message. -/
theorem webgl2_unavailable_reports_error_no_renderer :
    backgroundEffect true false =
        ⟨[.setErrorCall "WebGL2 not supported"], some "WebGL2 not supported"⟩ ∧
      EffectAction.rendererConstruction ∉ (backgroundEffect true false).actions ∧
      EffectAction.animationFrameRequest ∉ (backgroundEffect true false).actions ∧
      fallbackOverlayText (backgroundEffect true false).errorState =
        some "WebGL2 not supported" := by
  refine ⟨rfl, ?_, ?_, rfl⟩ <;> decide

/-- C7 counterexample: when program linking fails (`LINK_STATUS` false with
both shaders compiling), the failure is logged — but a renderer IS
produced, draw calls ARE issued each frame with the failed program, and the
host's error state stays unset; the claim that the failure is treated like
the unsupported-surface case (no usable renderer, no frames drawn) is
false. -/
theorem link_failure_still_draws_counterexample :
    (rendererConstructor true true false).loggedProgramInfoLog = true ∧
      (rendererConstructor true true false).completed = true ∧
      hostAfterContext true true false =
        { rendererProduced := true, drawsIssuedEachFrame := true,
          errorState := none } := by
  decide

/-- C7 (amended): a shader-compile or program-link failure is logged for
diagnostics, but it is NOT treated like the unsupported-surface case: the
constructor still completes and produces the renderer, the host error state
(and hence the fallback overlay) stays unset, and the animation loop still
issues a draw call with the failed program on every frame. -/
theorem link_failure_logged_but_renderer_still_runs
    (vsOk fsOk linkOk : Bool) (hlink : linkOk = false) :
    (rendererConstructor vsOk fsOk linkOk).loggedProgramInfoLog = true ∧
      (rendererConstructor vsOk fsOk linkOk).completed = true ∧
      (hostAfterContext vsOk fsOk linkOk).rendererProduced = true ∧
      (hostAfterContext vsOk fsOk linkOk).drawsIssuedEachFrame = true ∧
      (hostAfterContext vsOk fsOk linkOk).errorState = none ∧
      fallbackOverlayText (hostAfterContext vsOk fsOk linkOk).errorState =
        none := by
  subst hlink
  simp [rendererConstructor, hostAfterContext, fallbackOverlayText]

/-- C7 witness: the amended behavior at the concrete statuses
`vsOk = true`, `fsOk = true`, `linkOk = false`. -/
theorem link_failure_logged_but_renderer_still_runs_witness :
    (rendererConstructor true true false).loggedProgramInfoLog = true ∧
      (rendererConstructor true true false).completed = true ∧
      (hostAfterContext true true false).rendererProduced = true ∧
      (hostAfterContext true true false).drawsIssuedEachFrame = true ∧
      (hostAfterContext true true false).errorState = none ∧
      fallbackOverlayText (hostAfterContext true true false).errorState =
        none :=
  link_failure_logged_but_renderer_still_runs true true false rfl

/-- C8: every construction parameter is optional and each missing field
independently takes its default: no overrides yields `speed = 0.5`,
`radii = [0.2, 0.15, 0.22]`, `smoothK = [0.2, 0.25]`, and overriding any
subset of fields leaves every remaining field at its default. -/
theorem construction_defaults_independent :
    resolveProps ⟨none, none, none⟩ =
        ⟨0.5, (0.2, 0.15, 0.22), (0.2, 0.25)⟩ ∧
      (∀ s, resolveProps ⟨some s, none, none⟩ =
        ⟨s, (0.2, 0.15, 0.22), (0.2, 0.25)⟩) ∧
      (∀ r, resolveProps ⟨none, some r, none⟩ = ⟨0.5, r, (0.2, 0.25)⟩) ∧
      (∀ k, resolveProps ⟨none, none, some k⟩ =
        ⟨0.5, (0.2, 0.15, 0.22), k⟩) ∧
      (∀ p : LiquidCrystalProps, p.speed = none →
        (resolveProps p).speed = 0.5) ∧
      (∀ p : LiquidCrystalProps, p.radii = none →
        (resolveProps p).radii = (0.2, 0.15, 0.22)) ∧
      (∀ p : LiquidCrystalProps, p.smoothK = none →
        (resolveProps p).smoothK = (0.2, 0.25)) ∧
      (∀ p : LiquidCrystalProps, ∀ s, p.speed = some s →
        (resolveProps p).speed = s) ∧
      (∀ p : LiquidCrystalProps, ∀ r, p.radii = some r →
        (resolveProps p).radii = r) ∧
      (∀ p : LiquidCrystalProps, ∀ k, p.smoothK = some k →
        (resolveProps p).smoothK = k) := by
  refine ⟨rfl, fun s => rfl, fun r => rfl, fun k => rfl, ?_, ?_, ?_, ?_, ?_, ?_⟩
  all_goals intro p
  · intro h; simp [resolveProps, h]
  · intro h; simp [resolveProps, h]
  · intro h; simp [resolveProps, h]
  · intro s h; simp [resolveProps, h]
  · intro r h; simp [resolveProps, h]
  · intro k h; simp [resolveProps, h]

/-- C8 witness: the no-override case and partial overrides at concrete
values, obtained from the theorem. -/
theorem construction_defaults_independent_witness :
    resolveProps ⟨none, none, none⟩ =
        ⟨0.5, (0.2, 0.15, 0.22), (0.2, 0.25)⟩ ∧
      resolveProps ⟨some 1, none, none⟩ =
        ⟨1, (0.2, 0.15, 0.22), (0.2, 0.25)⟩ ∧
      (resolveProps ⟨none, some (1, 1, 1), none⟩).speed = 0.5 ∧
      (resolveProps ⟨some 2, none, none⟩).speed = 2 :=
  ⟨construction_defaults_independent.1,
    construction_defaults_independent.2.1 1,
    construction_defaults_independent.2.2.2.2.1 ⟨none, some (1, 1, 1), none⟩ rfl,
    construction_defaults_independent.2.2.2.2.2.2.2.1 ⟨some 2, none, none⟩ 2 rfl⟩

/-- C10: for every nonnegative integer `n`, `formatTime n` is
`"MM:SS"` with `MM = floor(n/60)` and `SS = n mod 60`, both zero-padded to
two digits, when `n < 3600`; and `"H:MM:SS"` with `H = floor(n/3600)`
unpadded and `MM`, `SS` the minutes and seconds within the hour, both
zero-padded, when `n ≥ 3600`. -/
theorem formatTime_shape (n : ℕ) :
    (n < 3600 →
      formatTime n = padStart2 (n / 60) ++ ":" ++ padStart2 (n % 60)) ∧
    (3600 ≤ n →
      formatTime n = toString (n / 3600) ++ ":" ++
        padStart2 (n % 3600 / 60) ++ ":" ++ padStart2 (n % 60)) := by
  constructor
  · intro hn
    have h0 : n / 3600 = 0 := Nat.div_eq_of_lt hn
    have hm : n % 3600 = n := Nat.mod_eq_of_lt hn
    simp [formatTime, h0, hm]
  · intro hn
    have hp : 0 < n / 3600 := Nat.div_pos hn (by norm_num)
    simp [formatTime, hp]

/-- C10 witness: both branches of the theorem at concrete inputs `125`
(giving `"02:05"`) and `3725` (giving `"1:02:05"`). -/
theorem formatTime_shape_witness :
    (125 < 3600 ∧
      formatTime 125 = padStart2 (125 / 60) ++ ":" ++ padStart2 (125 % 60)) ∧
    (3600 ≤ 3725 ∧
      formatTime 3725 = toString (3725 / 3600) ++ ":" ++
        padStart2 (3725 % 3600 / 60) ++ ":" ++ padStart2 (3725 % 60)) ∧
    formatTime 125 = "02:05" ∧ formatTime 3725 = "1:02:05" :=
  ⟨⟨by norm_num, (formatTime_shape 125).1 (by norm_num)⟩,
    ⟨by norm_num, (formatTime_shape 3725).2 (by norm_num)⟩,
    by decide, by decide⟩

/-- When `d2` beats `d1` by at least `k`, the clamp saturates at `1` and
the smooth union degenerates to its first argument. -/
lemma opSmoothUnion_eq_left {d1 d2 k : ℝ} (hk : 0 < k) (h : k ≤ d2 - d1) :
    opSmoothUnion d1 d2 k = d1 := by
  have harg : 1 ≤ 0.5 + 0.5 * (d2 - d1) / k := by
    rw [mul_div_assoc]
    have h1 : 1 ≤ (d2 - d1) / k := (one_le_div hk).mpr h
    linarith
  simp only [opSmoothUnion, glClamp_of_one_le harg, glMix]
  ring

/-- Companion lower bound to C1: the smooth union undershoots the hard
minimum by at most `k/4`. -/
lemma opSmoothUnion_ge (d1 d2 k : ℝ) (hk : 0 < k) :
    min d1 d2 - k / 4 ≤ opSmoothUnion d1 d2 k := by
  have h0 := glClamp_nonneg (0.5 + 0.5 * (d2 - d1) / k)
  have h1 := glClamp_le_one (0.5 + 0.5 * (d2 - d1) / k)
  set a : ℝ := glClamp (0.5 + 0.5 * (d2 - d1) / k) 0 1 with ha
  simp only [opSmoothUnion, ← ha, glMix]
  have m1 : min d1 d2 ≤ d1 := min_le_left _ _
  have m2 : min d1 d2 ≤ d2 := min_le_right _ _
  nlinarith [mul_nonneg (sub_nonneg.mpr m1) h0,
    mul_nonneg (sub_nonneg.mpr m2) (by linarith : (0 : ℝ) ≤ 1 - a),
    mul_nonneg hk.le (sq_nonneg (a - 0.5))]

/-- A circle SDF is bounded below by its horizontal offset minus the
radius. -/
lemma sdCircle_lower (x y r : ℝ) : x - r ≤ sdCircle (x, y) r := by
  unfold sdCircle glLength
  have h := Real.le_sqrt_of_sq_le
    (show x ^ 2 ≤ (x, y).1 ^ 2 + (x, y).2 ^ 2 by nlinarith [sq_nonneg y])
  linarith

lemma cos_two_point_one_nonpos : Real.cos 2.1 ≤ 0 := by
  apply Real.cos_nonpos_of_pi_div_two_le_of_le
  · linarith [Real.pi_lt_d2]
  · linarith [Real.pi_gt_three]

lemma cos_four_point_two_nonpos : Real.cos 4.2 ≤ 0 := by
  apply Real.cos_nonpos_of_pi_div_two_le_of_le
  · linarith [Real.pi_lt_d2]
  · linarith [Real.pi_gt_three]

/-- At time `0` with the default parameters, the uv point `(0.5, 0)` lies
exactly on blob 1's boundary while blobs 2 and 3 are farther away than
their blend ranges, so the blended scene SDF is exactly `0` there. -/
lemma mapScene_zero_at_boundary : mapScene defaultParams 0 (0.5, 0) = 0 := by
  have pyth2 := Real.sin_sq_add_cos_sq (2.1 : ℝ)
  have pyth3 := Real.sin_sq_add_cos_sq (4.2 : ℝ)
  show opSmoothUnion
      (opSmoothUnion
        (sdCircle (0.5 - Real.cos (0 * 0.5 * 0.5) * 0.3,
          0 - Real.sin (0 * 0.5 * 0.5) * 0.3) 0.2)
        (sdCircle (0.5 - Real.cos (0 * 0.5 * 0.7 + 2.1) * 0.4,
          0 - Real.sin (0 * 0.5 * 0.6 + 2.1) * 0.4) 0.15)
        0.2)
      (sdCircle (0.5 - Real.cos (0 * 0.5 * 0.4 + 4.2) * 0.35,
        0 - Real.sin (0 * 0.5 * 0.8 + 4.2) * 0.35) 0.22)
      0.25 = 0
  rw [show (0 : ℝ) * 0.5 * 0.5 = 0 by norm_num,
    show (0 : ℝ) * 0.5 * 0.7 + 2.1 = 2.1 by norm_num,
    show (0 : ℝ) * 0.5 * 0.6 + 2.1 = 2.1 by norm_num,
    show (0 : ℝ) * 0.5 * 0.4 + 4.2 = 4.2 by norm_num,
    show (0 : ℝ) * 0.5 * 0.8 + 4.2 = 4.2 by norm_num,
    Real.cos_zero, Real.sin_zero]
  have hb1 : sdCircle ((0.5 : ℝ) - 1 * 0.3, (0 : ℝ) - 0 * 0.3) 0.2 = 0 := by
    unfold sdCircle glLength
    rw [show (((0.5 : ℝ) - 1 * 0.3) ^ 2 + ((0 : ℝ) - 0 * 0.3) ^ 2) = 0.2 ^ 2 by
        norm_num,
      Real.sqrt_sq (by norm_num)]
    norm_num
  rw [hb1]
  have hb2 : (0.2 : ℝ) ≤ sdCircle ((0.5 : ℝ) - Real.cos 2.1 * 0.4,
      (0 : ℝ) - Real.sin 2.1 * 0.4) 0.15 := by
    unfold sdCircle glLength
    have key : (0.35 : ℝ) ≤ Real.sqrt (((0.5 : ℝ) - Real.cos 2.1 * 0.4) ^ 2 +
        ((0 : ℝ) - Real.sin 2.1 * 0.4) ^ 2) :=
      Real.le_sqrt_of_sq_le (by nlinarith [cos_two_point_one_nonpos, pyth2])
    linarith
  rw [opSmoothUnion_eq_left (by norm_num) (by linarith : (0.2 : ℝ) ≤ _ - 0)]
  have hb3 : (0.25 : ℝ) ≤ sdCircle ((0.5 : ℝ) - Real.cos 4.2 * 0.35,
      (0 : ℝ) - Real.sin 4.2 * 0.35) 0.22 := by
    unfold sdCircle glLength
    have key : (0.47 : ℝ) ≤ Real.sqrt (((0.5 : ℝ) - Real.cos 4.2 * 0.35) ^ 2 +
        ((0 : ℝ) - Real.sin 4.2 * 0.35) ^ 2) :=
      Real.le_sqrt_of_sq_le (by nlinarith [cos_four_point_two_nonpos, pyth3])
    linarith
  exact opSmoothUnion_eq_left (by norm_num) (by linarith : (0.25 : ℝ) ≤ _ - 0)

/-- The uv point of pixel `(1, 0)` under resolution `(2, 1)` is `(0.5, 0)`. -/
lemma uv_of_pixel_one_zero : uvOf (fragCenter 1 0) (2, 1) = (0.5, 0) := by
  unfold uvOf fragCenter
  norm_num

/-- C9 counterexample: at resolution `(2, 1)` the sampled pixel `(1, 0)`
(a valid pixel: `1 < 2`, `0 < 1`) has uv `(0.5, 0)`, and there the scene
SDF with the default parameters at elapsed time `0` is exactly `0` — so
the divisor `|finalDistance|` of `base = 0.01/|finalDistance|` IS exactly
zero at a sampled pixel, refuting the claim. -/
theorem zero_divisor_at_sampled_pixel_counterexample :
    1 < 2 ∧ 0 < 1 ∧ uvOf (fragCenter 1 0) (2, 1) = (0.5, 0) ∧
      mapScene defaultParams 0 (uvOf (fragCenter 1 0) (2, 1)) = 0 ∧
      |mapScene defaultParams 0 (uvOf (fragCenter 1 0) (2, 1))| = 0 := by
  refine ⟨by norm_num, by norm_num, uv_of_pixel_one_zero, ?_, ?_⟩ <;>
    rw [uv_of_pixel_one_zero, mapScene_zero_at_boundary]
  exact abs_zero

/-- C9 (amended): for every sampled pixel `(i, j)` of a positive
resolution `(w, h)` at which the final distance is not exactly zero, the
default-parameter frame at elapsed time `0` is well defined: the base
`0.01/|finalDistance|` is strictly positive and every color channel of the
pixel lies in `[0, 1]` with alpha exactly `1`.  (The divisor CAN be exactly
zero at a sampled pixel lying on the blended boundary, so the
qualification on `finalDistance` is necessary.) -/
theorem color_welldefined_at_nonboundary_pixels (w h i j : ℕ)
    (_hw : 0 < w) (_hh : 0 < h) (_hi : i < w) (_hj : j < h)
    (hd : mapScene defaultParams 0
      (uvOf (fragCenter i j) ((w : ℝ), (h : ℝ))) ≠ 0) :
    0 < 0.01 / |mapScene defaultParams 0
        (uvOf (fragCenter i j) ((w : ℝ), (h : ℝ)))| ∧
      (shaderMain defaultParams 0 ((w : ℝ), (h : ℝ)) (fragCenter i j)).1 ∈
        Set.Icc (0 : ℝ) 1 ∧
      (shaderMain defaultParams 0 ((w : ℝ), (h : ℝ)) (fragCenter i j)).2.1 ∈
        Set.Icc (0 : ℝ) 1 ∧
      (shaderMain defaultParams 0 ((w : ℝ), (h : ℝ)) (fragCenter i j)).2.2.1 ∈
        Set.Icc (0 : ℝ) 1 ∧
      (shaderMain defaultParams 0 ((w : ℝ), (h : ℝ)) (fragCenter i j)).2.2.2
        = 1 := by
  refine ⟨div_pos (by norm_num) (abs_pos.mpr hd), ⟨?_, ?_⟩, ⟨?_, ?_⟩,
    ⟨?_, ?_⟩, rfl⟩
  · exact glClamp_nonneg _
  · exact glClamp_le_one _
  · exact glClamp_nonneg _
  · exact glClamp_le_one _
  · exact glClamp_nonneg _
  · exact glClamp_le_one _

/-- At time `0` with default parameters, the uv point `(49.5, 0)` is far
from all three blobs, so the blended SDF is strictly positive there. -/
lemma mapScene_pos_far : 0 < mapScene defaultParams 0 (49.5, 0) := by
  show 0 < opSmoothUnion
      (opSmoothUnion
        (sdCircle (49.5 - Real.cos (0 * 0.5 * 0.5) * 0.3,
          0 - Real.sin (0 * 0.5 * 0.5) * 0.3) 0.2)
        (sdCircle (49.5 - Real.cos (0 * 0.5 * 0.7 + 2.1) * 0.4,
          0 - Real.sin (0 * 0.5 * 0.6 + 2.1) * 0.4) 0.15)
        0.2)
      (sdCircle (49.5 - Real.cos (0 * 0.5 * 0.4 + 4.2) * 0.35,
        0 - Real.sin (0 * 0.5 * 0.8 + 4.2) * 0.35) 0.22)
      0.25
  have hb1 : (49 : ℝ) ≤ sdCircle (49.5 - Real.cos (0 * 0.5 * 0.5) * 0.3,
      0 - Real.sin (0 * 0.5 * 0.5) * 0.3) 0.2 := by
    have hco := Real.cos_le_one ((0 : ℝ) * 0.5 * 0.5)
    have := sdCircle_lower (49.5 - Real.cos (0 * 0.5 * 0.5) * 0.3)
      (0 - Real.sin (0 * 0.5 * 0.5) * 0.3) 0.2
    linarith
  have hb2 : (48.95 : ℝ) ≤
      sdCircle (49.5 - Real.cos (0 * 0.5 * 0.7 + 2.1) * 0.4,
        0 - Real.sin (0 * 0.5 * 0.6 + 2.1) * 0.4) 0.15 := by
    have hco := Real.cos_le_one ((0 : ℝ) * 0.5 * 0.7 + 2.1)
    have := sdCircle_lower (49.5 - Real.cos (0 * 0.5 * 0.7 + 2.1) * 0.4)
      (0 - Real.sin (0 * 0.5 * 0.6 + 2.1) * 0.4) 0.15
    linarith
  have hb3 : (48.93 : ℝ) ≤
      sdCircle (49.5 - Real.cos (0 * 0.5 * 0.4 + 4.2) * 0.35,
        0 - Real.sin (0 * 0.5 * 0.8 + 4.2) * 0.35) 0.22 := by
    have hco := Real.cos_le_one ((0 : ℝ) * 0.5 * 0.4 + 4.2)
    have := sdCircle_lower (49.5 - Real.cos (0 * 0.5 * 0.4 + 4.2) * 0.35)
      (0 - Real.sin (0 * 0.5 * 0.8 + 4.2) * 0.35) 0.22
    linarith
  have h12 := opSmoothUnion_ge
    (sdCircle (49.5 - Real.cos (0 * 0.5 * 0.5) * 0.3,
      0 - Real.sin (0 * 0.5 * 0.5) * 0.3) 0.2)
    (sdCircle (49.5 - Real.cos (0 * 0.5 * 0.7 + 2.1) * 0.4,
      0 - Real.sin (0 * 0.5 * 0.6 + 2.1) * 0.4) 0.15)
    0.2 (by norm_num)
  have hmin12 : (48.95 : ℝ) ≤ min
      (sdCircle (49.5 - Real.cos (0 * 0.5 * 0.5) * 0.3,
        0 - Real.sin (0 * 0.5 * 0.5) * 0.3) 0.2)
      (sdCircle (49.5 - Real.cos (0 * 0.5 * 0.7 + 2.1) * 0.4,
        0 - Real.sin (0 * 0.5 * 0.6 + 2.1) * 0.4) 0.15) :=
    le_min (by linarith) (by linarith)
  have hfin := opSmoothUnion_ge
    (opSmoothUnion
      (sdCircle (49.5 - Real.cos (0 * 0.5 * 0.5) * 0.3,
        0 - Real.sin (0 * 0.5 * 0.5) * 0.3) 0.2)
      (sdCircle (49.5 - Real.cos (0 * 0.5 * 0.7 + 2.1) * 0.4,
        0 - Real.sin (0 * 0.5 * 0.6 + 2.1) * 0.4) 0.15)
      0.2)
    (sdCircle (49.5 - Real.cos (0 * 0.5 * 0.4 + 4.2) * 0.35,
      0 - Real.sin (0 * 0.5 * 0.8 + 4.2) * 0.35) 0.22)
    0.25 (by norm_num)
  have hminf : (48.8 : ℝ) ≤ min
      (opSmoothUnion
        (sdCircle (49.5 - Real.cos (0 * 0.5 * 0.5) * 0.3,
          0 - Real.sin (0 * 0.5 * 0.5) * 0.3) 0.2)
        (sdCircle (49.5 - Real.cos (0 * 0.5 * 0.7 + 2.1) * 0.4,
          0 - Real.sin (0 * 0.5 * 0.6 + 2.1) * 0.4) 0.15)
        0.2)
      (sdCircle (49.5 - Real.cos (0 * 0.5 * 0.4 + 4.2) * 0.35,
        0 - Real.sin (0 * 0.5 * 0.8 + 4.2) * 0.35) 0.22) :=
    le_min (by linarith) (by linarith)
  linarith

/-- The uv point of pixel `(99, 0)` under resolution `(100, 1)` is
`(49.5, 0)`. -/
lemma uv_of_pixel_far : uvOf (fragCenter 99 0) ((100 : ℝ), (1 : ℝ)) =
    (49.5, 0) := by
  unfold uvOf fragCenter
  norm_num

/-- C9 witness: the amended theorem at the concrete sampled pixel `(99, 0)`
of resolution `(100, 1)`, where the final distance is strictly positive. -/
theorem color_welldefined_at_nonboundary_pixels_witness :
    0 < 0.01 / |mapScene defaultParams 0
        (uvOf (fragCenter 99 0) ((100 : ℝ), (1 : ℝ)))| ∧
      (shaderMain defaultParams 0 ((100 : ℝ), (1 : ℝ)) (fragCenter 99 0)).1 ∈
        Set.Icc (0 : ℝ) 1 ∧
      (shaderMain defaultParams 0 ((100 : ℝ), (1 : ℝ))
        (fragCenter 99 0)).2.1 ∈ Set.Icc (0 : ℝ) 1 ∧
      (shaderMain defaultParams 0 ((100 : ℝ), (1 : ℝ))
        (fragCenter 99 0)).2.2.1 ∈ Set.Icc (0 : ℝ) 1 ∧
      (shaderMain defaultParams 0 ((100 : ℝ), (1 : ℝ))
        (fragCenter 99 0)).2.2.2 = 1 := by
  have hd : mapScene defaultParams 0
      (uvOf (fragCenter 99 0) ((100 : ℝ), (1 : ℝ))) ≠ 0 := by
    rw [uv_of_pixel_far]
    exact ne_of_gt mapScene_pos_far
  have hcast : ((100 : ℕ) : ℝ) = (100 : ℝ) := by norm_num
  have hcast1 : ((1 : ℕ) : ℝ) = (1 : ℝ) := by norm_num
  have h := color_welldefined_at_nonboundary_pixels 100 1 99 0
    (by norm_num) (by norm_num) (by norm_num) (by norm_num)
  rw [hcast, hcast1] at h
  exact h hd

end Zenflow
